import Mathlib

/-!
Verification of the Contextual Sentiment Scoring Pipeline of
`src/backend/python/sentiment_analyzer.py` (mental-wellness-mirror).

Shallow embedding conventions:
* text is a `List Char`; Python `str.lower()` becomes `Char.toLower` mapped
  over the list; Python's substring operator `in` becomes `containsSub`;
* Python floats are modelled as exact rationals `ℚ`; Python's binary
  `min`/`max` become `pymin`/`pymax` (explicit `if` on `<`, as Python
  evaluates them);
* the external base polarity scorer (`SentimentIntensityAnalyzer`) is an
  input: `analyze_sentiment` takes the raw scores as an argument;
* `round(x, 3)` is modelled by `round3`;
* the CLI entry point `main` is modelled as the pure function `run_main`
  over the argument vector, the availability of the scorer dependency and
  a possibly-failing scorer.
-/

namespace MentalWellness

/-- Python `text.lower()` (ASCII case folding). -/
def lower (t : List Char) : List Char := t.map Char.toLower

/-- Python substring membership `needle in haystack`. -/
def containsSub (needle : List Char) : List Char → Bool
  | [] => needle.isPrefixOf []
  | c :: rest => needle.isPrefixOf (c :: rest) || containsSub needle rest

/-- Python `min(a, b)`: returns the second argument only when it is
strictly smaller. -/
def pymin (a b : ℚ) : ℚ := if b < a then b else a

/-- Python `max(a, b)`: returns the second argument only when it is
strictly larger. -/
def pymax (a b : ℚ) : ℚ := if a < b then b else a

/-- The `MENTAL_HEALTH_KEYWORDS` dict: lowercase term ↦ signed weight. -/
def MENTAL_HEALTH_KEYWORDS : List (List Char × ℚ) :=
  [("depressed".toList, -3/10),
   ("suicidal".toList, -5/10),
   ("hopeless".toList, -3/10),
   ("worthless".toList, -3/10),
   ("panic".toList, -2/10),
   ("anxiety".toList, -2/10),
   ("anxious".toList, -2/10),
   ("overwhelmed".toList, -2/10),
   ("burnout".toList, -3/10),
   ("exhausted".toList, -2/10),
   ("isolated".toList, -2/10),
   ("lonely".toList, -2/10),
   ("numb".toList, -2/10),
   ("empty".toList, -2/10),
   ("hopeful".toList, 2/10),
   ("grateful".toList, 2/10),
   ("accomplished".toList, 2/10),
   ("peaceful".toList, 2/10),
   ("calm".toList, 2/10),
   ("relaxed".toList, 2/10),
   ("confident".toList, 2/10),
   ("proud".toList, 2/10)]

/-- The `SARCASM_INDICATORS` list. -/
def SARCASM_INDICATORS : List (List Char) :=
  ["yeah right".toList, "oh great".toList, "just what i needed".toList,
   "perfect".toList, "wonderful".toList, "fantastic".toList,
   "brilliant".toList, "amazing".toList]

/-- The `negative_context` list inside `detect_sarcasm`. -/
def negative_context : List (List Char) :=
  ["another".toList, "just".toList, "oh".toList, "yeah".toList, "sure".toList]

/-- The `sarcasm_emojis` list inside `detect_sarcasm`. -/
def sarcasm_emojis : List (List Char) :=
  ["🙄".toList, "😒".toList, "🤦".toList, "🤷".toList, "😑".toList]

/-- `detect_sarcasm(text)`: an indicator phrase in the lower-cased text
together with a negative-context token anywhere in it, or a sarcasm emoji
in the original text. -/
def detect_sarcasm (text : List Char) : Bool :=
  let text_lower := lower text
  (SARCASM_INDICATORS.any fun indicator =>
    containsSub indicator text_lower &&
      negative_context.any fun word => containsSub word text_lower) ||
  sarcasm_emojis.any fun emoji => containsSub emoji text

/-- `adjust_for_mental_health(text, base_compound)`: add the weight of every
keyword occurring in the lower-cased text, clamp the total to ±0.3, and add
it to the base compound. -/
def adjust_for_mental_health (text : List Char) (base_compound : ℚ) : ℚ :=
  let text_lower := lower text
  let adjustment : ℚ :=
    MENTAL_HEALTH_KEYWORDS.foldl
      (fun acc kw => if containsSub kw.1 text_lower then acc + kw.2 else acc) 0
  let adjustment := pymax (-3/10) (pymin (3/10) adjustment)
  base_compound + adjustment

/-- Python `round(x, 3)`. -/
def round3 (x : ℚ) : ℚ := ((round (x * 1000) : ℤ) : ℚ) / 1000

/-- The raw component scores returned by the external base polarity scorer
(`analyzer.polarity_scores(text)`). -/
structure RawScores where
  pos : ℚ
  neu : ℚ
  neg : ℚ
  compound : ℚ
deriving DecidableEq, Repr, Inhabited

/-- The `adjustments` sub-object of the result. -/
structure Adjustments where
  sarcasm_detected : Bool
  mental_health_context : Bool
deriving DecidableEq, Repr

/-- The result dictionary built by `analyze_sentiment`. -/
structure SentimentResult where
  positive : ℚ
  neutral : ℚ
  negative : ℚ
  compound : ℚ
  label : String
  emoji : String
  adjustments : Adjustments
deriving DecidableEq, Repr

/-- The sarcasm step of `analyze_sentiment`: flip and dampen a positive
compound when sarcasm is detected. -/
def compoundAfterSarcasm (text : List Char) (compound : ℚ) : ℚ :=
  if detect_sarcasm text = true ∧ 0 < compound then -|compound| * (7/10)
  else compound

/-- The compound after the sarcasm step and the mental-health adjustment,
before the final clamp. -/
def compoundAfterAdjust (text : List Char) (scores : RawScores) : ℚ :=
  adjust_for_mental_health text (compoundAfterSarcasm text scores.compound)

/-- The final compound of `analyze_sentiment`: clamped to [-1, 1]. -/
def finalCompound (text : List Char) (scores : RawScores) : ℚ :=
  pymax (-1) (pymin 1 (compoundAfterAdjust text scores))

/-- The label/emoji classification of `analyze_sentiment`. -/
def classify (compound : ℚ) : String × String :=
  if compound ≥ 5/100 then ("Positive", "😊")
  else if compound ≤ -5/100 then ("Negative", "😔")
  else ("Neutral", "😐")

/-- `analyze_sentiment(text)` with the external scorer's output passed in. -/
def analyze_sentiment (text : List Char) (scores : RawScores) : SentimentResult :=
  let compound := finalCompound text scores
  let le := classify compound
  { positive := round3 scores.pos
    neutral := round3 scores.neu
    negative := round3 scores.neg
    compound := round3 compound
    label := le.1
    emoji := le.2
    adjustments :=
      { sarcasm_detected := detect_sarcasm text
        mental_health_context := true } }

/-- Two back-to-back invocations of the pipeline on the same text, with the
base scorer a fixed function of the text. -/
def runTwice (scorer : List Char → RawScores) (text : List Char) :
    SentimentResult × SentimentResult :=
  (analyze_sentiment text (scorer text), analyze_sentiment text (scorer text))

/-- Outcome of one CLI invocation: either the result object is printed and
the process exits 0, or a JSON object with a single `error` field is printed
and the process exits 1. -/
inductive MainOutcome where
  | success (result : SentimentResult)
  | failure (error : String)
deriving DecidableEq, Repr

/-- The process exit status of an outcome. -/
def exit_code : MainOutcome → Nat
  | .success _ => 0
  | .failure _ => 1

/-- Python `not text or len(text.strip()) == 0`: empty or whitespace-only. -/
def isBlank (t : List Char) : Bool := t.all Char.isWhitespace

/-- `text = sys.argv[1]` (defaulting to the empty string when absent; `main`
only reads it behind the length guard). -/
def argText (argv : List String) : List Char := (argv.getD 1 "").toList

/-- `main()` plus the import guard, as a pure function of the availability of
the `vaderSentiment` dependency, the (possibly raising) scorer, and `sys.argv`
(index 0 is the program name). -/
def run_main (vaderAvailable : Bool) (scorer : List Char → Option RawScores)
    (argv : List String) : MainOutcome :=
  if !vaderAvailable then
    .failure "vaderSentiment not installed. Run: pip install vaderSentiment"
  else if argv.length < 2 then
    .failure "No text provided for analysis"
  else
    let text := argText argv
    if isBlank text then
      .failure "Empty text provided"
    else
      match scorer text with
      | none => .failure "Analysis failed"
      | some scores => .success (analyze_sentiment text scores)

/-! ### Helper lemmas -/

/-- `containsSub` decides list-infix. -/
theorem containsSub_iff {needle haystack : List Char} :
    containsSub needle haystack = true ↔ needle <:+: haystack := by
  induction haystack with
  | nil =>
    simp [containsSub, List.isPrefixOf_iff_prefix]
  | cons c rest ih =>
    simp [containsSub, List.isPrefixOf_iff_prefix, ih, List.infix_cons_iff]

theorem pymax_eq_max (a b : ℚ) : pymax a b = max a b := by
  rcases lt_trichotomy a b with h | h | h <;>
    simp [pymax, max_def, h, h.le, h.not_lt, le_of_lt]

theorem pymin_eq_min (a b : ℚ) : pymin a b = min a b := by
  rcases lt_trichotomy a b with h | h | h <;>
    simp [pymin, min_def, h, h.le, h.not_lt, le_of_lt]

/-- The keyword loop of `adjust_for_mental_health`, as a sum over the
matching entries. -/
theorem keyword_foldl_eq (tl : List Char) :
    ∀ (l : List (List Char × ℚ)) (acc : ℚ),
      l.foldl (fun acc kw => if containsSub kw.1 tl = true then acc + kw.2 else acc) acc
        = acc + ((l.filter fun kw => containsSub kw.1 tl).map Prod.snd).sum
  | [], acc => by simp
  | kw :: rest, acc => by
    by_cases h : containsSub kw.1 tl = true <;>
      simp [h, keyword_foldl_eq tl rest, List.filter_cons]
    ring

/-- The total signed weight of the distinct keywords occurring in the
lower-cased text (spec-side description of the keyword loop). -/
def keywordWeightSum (text : List Char) : ℚ :=
  ((MENTAL_HEALTH_KEYWORDS.filter fun kw => containsSub kw.1 (lower text)).map Prod.snd).sum

theorem adjust_for_mental_health_eq (text : List Char) (base : ℚ) :
    adjust_for_mental_health text base
      = base + pymax (-3/10) (pymin (3/10) (keywordWeightSum text)) := by
  simp only [adjust_for_mental_health, keywordWeightSum]
  rw [keyword_foldl_eq, zero_add]

/-- Characterisation of `detect_sarcasm` as a disjunction of substring
conditions. -/
theorem detect_sarcasm_iff (text : List Char) :
    detect_sarcasm text = true ↔
      (((∃ ind ∈ SARCASM_INDICATORS, ind <:+: lower text) ∧
         ∃ w ∈ negative_context, w <:+: lower text) ∨
       ∃ e ∈ sarcasm_emojis, e <:+: text) := by
  simp only [detect_sarcasm, Bool.or_eq_true, List.any_eq_true, Bool.and_eq_true,
    containsSub_iff]
  constructor
  · rintro (⟨i, hi, hp, w, hw, hq⟩ | ⟨e, he, hs⟩)
    · exact Or.inl ⟨⟨i, hi, hp⟩, w, hw, hq⟩
    · exact Or.inr ⟨e, he, hs⟩
  · rintro (⟨⟨i, hi, hp⟩, w, hw, hq⟩ | ⟨e, he, hs⟩)
    · exact Or.inl ⟨i, hi, hp, w, hw, hq⟩
    · exact Or.inr ⟨e, he, hs⟩

/-- With no keyword present, the adjuster returns its base unchanged. -/
theorem adjust_for_mental_health_of_no_keyword (text : List Char) (base : ℚ)
    (hk : ∀ kw ∈ MENTAL_HEALTH_KEYWORDS, containsSub kw.1 (lower text) = false) :
    adjust_for_mental_health text base = base := by
  have hfilter :
      (MENTAL_HEALTH_KEYWORDS.filter fun kw => containsSub kw.1 (lower text)) = [] := by
    rw [List.filter_eq_nil_iff]
    intro kw hkw
    simp [hk kw hkw]
  have hsum : keywordWeightSum text = 0 := by
    unfold keywordWeightSum
    rw [hfilter]
    simp
  rw [adjust_for_mental_health_eq, hsum]
  norm_num [pymax, pymin]

/-! ### Claim theorems -/

/-- C1: when the sarcasm detector reports true, a strictly positive base
compound enters the domain-keyword adjustment as `-abs(base) * 0.7`, while a
base compound ≤ 0 enters it unchanged. -/
theorem c1_sarcasm_flip (text : List Char) (compound : ℚ)
    (h : detect_sarcasm text = true) :
    (0 < compound → compoundAfterSarcasm text compound = -|compound| * (7/10))
    ∧ (compound ≤ 0 → compoundAfterSarcasm text compound = compound) := by
  refine ⟨fun hc => ?_, fun hc => ?_⟩
  · simp [compoundAfterSarcasm, h, hc]
  · simp [compoundAfterSarcasm, hc.not_lt]

theorem c1_sarcasm_flip_witness :
    compoundAfterSarcasm "yeah right".toList (1/2) = -|(1/2 : ℚ)| * (7/10)
    ∧ compoundAfterSarcasm "yeah right".toList (-1/2) = -1/2 :=
  ⟨(c1_sarcasm_flip "yeah right".toList (1/2) (by decide)).1 (by norm_num),
   (c1_sarcasm_flip "yeah right".toList (-1/2) (by decide)).2 (by norm_num)⟩

/-- C2: the domain-keyword correction (adjuster result minus the base it was
given) is the sum of the signed weights of the distinct keywords occurring in
the lower-cased text, clamped to [-0.3, 0.3]; with no keyword present it is
exactly 0. -/
theorem c2_keyword_adjustment (text : List Char) (base : ℚ) :
    adjust_for_mental_health text base - base
      = max (-3/10) (min (3/10) (keywordWeightSum text))
    ∧ ((∀ kw ∈ MENTAL_HEALTH_KEYWORDS, containsSub kw.1 (lower text) = false) →
        adjust_for_mental_health text base - base = 0) := by
  have h := adjust_for_mental_health_eq text base
  constructor
  · rw [h, pymax_eq_max, pymin_eq_min]; ring
  · intro hnone
    rw [adjust_for_mental_health_of_no_keyword text base hnone]
    ring

theorem c2_keyword_adjustment_witness :
    adjust_for_mental_health "xyz".toList (1/2) - 1/2 = 0 :=
  (c2_keyword_adjustment "xyz".toList (1/2)).2 (by decide)

/-- C5: the sarcasm detector is true exactly when some indicator phrase is a
substring of the lower-cased text and some negative-context token occurs in
it as well, or some indicator emoji occurs in the original text; on the empty
text it is false. -/
theorem c5_detect_sarcasm_spec (text : List Char) :
    (detect_sarcasm text = true ↔
      (((∃ ind ∈ SARCASM_INDICATORS, ind <:+: lower text) ∧
         ∃ w ∈ negative_context, w <:+: lower text) ∨
       ∃ e ∈ sarcasm_emojis, e <:+: text))
    ∧ detect_sarcasm [] = false :=
  ⟨detect_sarcasm_iff text, by decide⟩

/-- C7: with the base scorer a fixed function of the text, two invocations of
the pipeline on identical text produce identical results (the embedding is
pure, so no call can mutate the keyword table or the indicator sets). -/
theorem c7_deterministic (scorer : List Char → RawScores) (text : List Char) :
    (runTwice scorer text).1 = (runTwice scorer text).2 := rfl

/-- C8: the result's `adjustments.sarcasm_detected` equals the detector value
used in the flip decision, and `adjustments.mental_health_context` is true
unconditionally. -/
theorem c8_adjustment_flags (text : List Char) (scores : RawScores) :
    (analyze_sentiment text scores).adjustments.sarcasm_detected = detect_sarcasm text
    ∧ (analyze_sentiment text scores).adjustments.mental_health_context = true
    ∧ compoundAfterSarcasm text scores.compound
        = (if (analyze_sentiment text scores).adjustments.sarcasm_detected = true
              ∧ 0 < scores.compound
           then -|scores.compound| * (7/10) else scores.compound) :=
  ⟨rfl, rfl, rfl⟩

/-- C9: a text whose lower-cased form contains "oh great" or "yeah right"
triggers the sarcasm detector with no separate context word, because "oh"
and "yeah" are substrings of those phrases. -/
theorem c9_self_context_phrases (text : List Char)
    (h : containsSub "oh great".toList (lower text) = true
       ∨ containsSub "yeah right".toList (lower text) = true) :
    detect_sarcasm text = true := by
  rw [detect_sarcasm_iff]
  rcases h with h | h
  · have hin : ("oh great".toList : List Char) <:+: lower text := containsSub_iff.mp h
    have hsub : containsSub "oh".toList "oh great".toList = true := by decide
    have hoh : ("oh".toList : List Char) <:+: lower text :=
      List.IsInfix.trans (containsSub_iff.mp hsub) hin
    exact Or.inl ⟨⟨"oh great".toList, by decide, hin⟩, "oh".toList, by decide, hoh⟩
  · have hin : ("yeah right".toList : List Char) <:+: lower text := containsSub_iff.mp h
    have hsub : containsSub "yeah".toList "yeah right".toList = true := by decide
    have hyeah : ("yeah".toList : List Char) <:+: lower text :=
      List.IsInfix.trans (containsSub_iff.mp hsub) hin
    exact Or.inl ⟨⟨"yeah right".toList, by decide, hin⟩, "yeah".toList, by decide, hyeah⟩

theorem c9_self_context_phrases_witness :
    detect_sarcasm "oh great".toList = true :=
  c9_self_context_phrases "oh great".toList (Or.inl (by decide))

/-- C10: the positive/neutral/negative fields of the result are the base
scorer's component scores rounded to 3 decimals; the sarcasm flip, keyword
adjustment and clamp touch only the compound. -/
theorem c10_component_scores_frame (text : List Char) (scores : RawScores) :
    (analyze_sentiment text scores).positive = round3 scores.pos
    ∧ (analyze_sentiment text scores).neutral = round3 scores.neu
    ∧ (analyze_sentiment text scores).negative = round3 scores.neg :=
  ⟨rfl, rfl, rfl⟩

/-- C3: the final compound is the pre-clamp compound clamped to [-1, 1]
(the result field holds its 3-decimal rounding), and the label and emoji are
assigned by the fixed thresholds ±0.05 on that clamped compound, each label
paired with its one emoji glyph. -/
theorem c3_clamp_and_classify (text : List Char) (scores : RawScores) :
    finalCompound text scores = max (-1) (min 1 (compoundAfterAdjust text scores))
    ∧ (analyze_sentiment text scores).compound = round3 (finalCompound text scores)
    ∧ -1 ≤ finalCompound text scores ∧ finalCompound text scores ≤ 1
    ∧ ((analyze_sentiment text scores).label, (analyze_sentiment text scores).emoji)
        = (if finalCompound text scores ≥ 5/100 then ("Positive", "😊")
           else if finalCompound text scores ≤ -5/100 then ("Negative", "😔")
           else ("Neutral", "😐")) := by
  have hmax : finalCompound text scores
      = max (-1) (min 1 (compoundAfterAdjust text scores)) := by
    unfold finalCompound
    rw [pymax_eq_max, pymin_eq_min]
  refine ⟨hmax, rfl, ?_, ?_, rfl⟩
  · rw [hmax]
    exact le_max_left _ _
  · rw [hmax]
    exact max_le (by norm_num) (min_le_left _ _)

/-- C4: with no sarcasm indicator and no domain keyword in the text, and the
base compound within the scorer's contractual range [-1, 1], the result's
compound is the base compound rounded to 3 decimals. -/
theorem c4_identity_without_triggers (text : List Char) (scores : RawScores)
    (hs : detect_sarcasm text = false)
    (hk : ∀ kw ∈ MENTAL_HEALTH_KEYWORDS, containsSub kw.1 (lower text) = false)
    (hlo : -1 ≤ scores.compound) (hhi : scores.compound ≤ 1) :
    (analyze_sentiment text scores).compound = round3 scores.compound := by
  have h1 : compoundAfterSarcasm text scores.compound = scores.compound := by
    simp [compoundAfterSarcasm, hs]
  have h2 : compoundAfterAdjust text scores = scores.compound := by
    unfold compoundAfterAdjust
    rw [h1, adjust_for_mental_health_of_no_keyword text scores.compound hk]
  have h3 : finalCompound text scores = scores.compound := by
    unfold finalCompound
    rw [h2, pymax_eq_max, pymin_eq_min, min_eq_right hhi, max_eq_right hlo]
  show round3 (finalCompound text scores) = round3 scores.compound
  rw [h3]

theorem c4_identity_without_triggers_witness :
    (analyze_sentiment "zzz".toList ⟨0, 0, 0, 1/4⟩).compound = round3 (1/4) :=
  c4_identity_without_triggers "zzz".toList ⟨0, 0, 0, 1/4⟩ (by decide) (by decide)
    (by norm_num) (by norm_num)

/-- C6: the CLI exits 0 and emits the full result exactly when the scorer
dependency is available, a text argument is present and not blank, and the
scorer raises no fault; in every failure case it exits 1 with an outcome
carrying a single error string and no scoring data. -/
theorem c6_cli_exit_behaviour (vaderAvailable : Bool)
    (scorer : List Char → Option RawScores) (argv : List String) :
    (exit_code (run_main vaderAvailable scorer argv) = 0 ↔
      (vaderAvailable = true ∧ 2 ≤ argv.length ∧
        isBlank (argText argv) = false ∧
        (scorer (argText argv)).isSome = true))
    ∧ (exit_code (run_main vaderAvailable scorer argv) = 0 →
        ∃ scores, scorer (argText argv) = some scores ∧
          run_main vaderAvailable scorer argv
            = MainOutcome.success (analyze_sentiment (argText argv) scores))
    ∧ (exit_code (run_main vaderAvailable scorer argv) ≠ 0 →
        exit_code (run_main vaderAvailable scorer argv) = 1 ∧
          ∃ msg, run_main vaderAvailable scorer argv = MainOutcome.failure msg) := by
  cases vaderAvailable with
  | false => simp [run_main, exit_code]
  | true =>
    by_cases hlen : argv.length < 2
    · have h2 : ¬ 2 ≤ argv.length := by omega
      simp [run_main, hlen, exit_code, h2]
    · have h2 : 2 ≤ argv.length := by omega
      by_cases hb : isBlank (argText argv) = true
      · simp [run_main, hlen, hb, exit_code]
      · have hb' : isBlank (argText argv) = false := by
          simpa using hb
        cases hsc : scorer (argText argv) with
        | none => simp [run_main, hlen, hb', exit_code, hsc]
        | some scores => simp [run_main, hlen, hb', exit_code, hsc, h2]

end MentalWellness
